import Mathlib

/-!
Shallow embedding of `src/register_agent.py` (duplocloud/docker-wazuh-agent).

The HTTP layer is abstracted by a `Transport` oracle per request: either the
request produced a parsed JSON response with an HTTP status code, or some
transport/parsing exception occurred.  Response bodies are embedded as
structured records holding exactly the fields the source code reads.
Python exceptions are made explicit with `PyResult`: every embedded function
that can raise (or propagate) an exception returns a `PyResult`.
Wall-clock time (`time.time()`) is an explicit `Nat` parameter; `time.sleep`
advances it.  The module-level mutable globals `cached_token` and
`token_expiration` become an explicit `AuthState` threaded through calls.
-/

set_option maxHeartbeats 1000000

/-- Outcome of running a piece of Python code: a normal return value, or a
raised exception carrying its message. -/
inductive PyResult (α : Type) where
  | ok (a : α)
  | raised (msg : String)
deriving DecidableEq, Repr

/-- Module-level globals of `register_agent.py`: `cached_token` (initially
`None`) and `token_expiration` (initially `0`). -/
structure AuthState where
  cached_token : Option String
  token_expiration : Nat
deriving DecidableEq, Repr

/-- Response to the Basic-Auth login request issued by `get_auth_token`:
HTTP status, the token found at `data.token` of the JSON body (read only on
status 200), and the raw body `response.content` (only logged by the source). -/
structure LoginResp where
  status_code : Nat
  token : String
  content : String
deriving DecidableEq, Repr

/-- Python truthiness of the `cached_token` global: `None` and the empty
string are falsy. -/
def pyTruthyStr : Option String → Bool
  | none => false
  | some s => !(s == "")

/-- Guard of `get_auth_token`'s cache hit: `cached_token and time.time() <
token_expiration`. -/
def token_valid (st : AuthState) (now : Nat) : Bool :=
  pyTruthyStr st.cached_token && decide (now < st.token_expiration)

/-- Embedding of `get_auth_token` (src/register_agent.py lines 30-53).
Returns the result (token or raised exception), the updated globals, and the
number of login HTTP requests performed (0 or 1).  The source calls
`time.time()` twice (guard and expiry computation); both are modelled by the
single instant `now`. -/
def get_auth_token (st : AuthState) (now : Nat) (login : LoginResp) :
    PyResult String × AuthState × Nat :=
  if token_valid st now then
    (.ok (st.cached_token.getD ""), st, 0)
  else if login.status_code = 200 then
    (.ok login.token, ⟨some login.token, now + 300⟩, 1)
  else
    (.raised "Failed to get authentication token", st, 1)

/-- HTTP method dispatched on by `wazuh_api`. -/
inductive ApiMethod where
  | get
  | post
  | put
  | delete
deriving DecidableEq, Repr

/-- Outcome of one HTTP request made through the `requests` library together
with `response.json()` parsing: either a status code with a parsed body, or
any transport/parsing exception. -/
inductive Transport (β : Type) where
  | resp (code : Nat) (body : β)
  | exn
deriving DecidableEq, Repr

/-- Pair returned by `wazuh_api`: `status_code` is `None` on failure, and the
body is the parsed JSON response (`none` stands for the empty dict `{}`
returned on failure). -/
structure ApiResult (β : Type) where
  status_code : Option Nat
  body : Option β
deriving DecidableEq, Repr

/-- Embedding of `wazuh_api` (src/register_agent.py lines 113-151).  The whole
body runs inside `try/except Exception`: a failure of `get_auth_token` or of
the HTTP request/JSON parse is caught and converted to `(None, {})`.  The
third component counts login requests made by `get_auth_token`. -/
def wazuh_api {β : Type} (method : ApiMethod) (resource : String)
    (st : AuthState) (now : Nat) (login : LoginResp) (tr : Transport β) :
    PyResult (ApiResult β) × AuthState × Nat :=
  match get_auth_token st now login with
  | (.raised _, st2, n) => (.ok ⟨none, none⟩, st2, n)
  | (.ok _, st2, n) =>
    match tr with
    | .resp code body => (.ok ⟨some code, some body⟩, st2, n)
    | .exn => (.ok ⟨none, none⟩, st2, n)

/-- ApiResult produced by a transport outcome when token acquisition succeeds. -/
def tr_result {β : Type} : Transport β → ApiResult β
  | .resp code body => ⟨some code, some body⟩
  | .exn => ⟨none, none⟩

/-- AuthState after one `get_auth_token` call. -/
def auth_next (st : AuthState) (now : Nat) (login : LoginResp) : AuthState :=
  (get_auth_token st now login).2.1

/-- One record of the `affected_items` array of an agents-list response.  The
source reads `name`, `status` and `id` directly and the group list via
`.get("group", [])`, so `group` may be absent. -/
structure AgentItem where
  name : String
  status : String
  id : String
  group : Option (List String)
deriving DecidableEq, Repr

/-- Parsed JSON body of an agents-list response: top-level `error` field and
`data.affected_items`. -/
structure AgentListBody where
  error : Int
  affected_items : List AgentItem
deriving DecidableEq, Repr

/-- Parsed JSON body of an `agents/insert` response: top-level `error`,
`data.id` and `data.key`. -/
structure InsertBody where
  error : Int
  id : String
  key : String
deriving DecidableEq, Repr

/-- One record of the `affected_items` array of an agent-key response. -/
structure KeyItem where
  key : String
deriving DecidableEq, Repr

/-- Parsed JSON body of an `agents/{id}/key` response. -/
structure KeyListBody where
  error : Int
  affected_items : List KeyItem
deriving DecidableEq, Repr

/-- Parsed JSON body of a group-assignment (PUT) response. -/
structure PutBody where
  error : Int
deriving DecidableEq, Repr

/-- Loop of `wazuh_agent_status`: each iteration overwrites the three local
variables with the current item's fields, so the last item wins; the
initial value is the three `None`s set before the call. -/
def status_fold (l : List AgentItem) :
    Option String × Option String × Option String :=
  l.foldl (fun _ it => (some it.name, some it.status, some it.id)) (none, none, none)

/-- Embedding of `code_desc` (src/register_agent.py lines 164-165), invoked
by `http_codes_serializer` (lines 87-90), which every API caller applies to
its result *before* inspecting the status: it looks up
`requests.status_codes._codes[http_status_code][0]`.  The `_codes` table is
a plain dict keyed by integers, so a `None` status code (the transport-
failure sentinel of `wazuh_api`) is not a key and the lookup raises
KeyError.  The description text itself is only interpolated into a log
message, so it is collapsed to `Unit`; a numeric code missing from the table
would also raise, but every response modelled here carries a standard code
that is a table key. -/
def code_desc : Option Nat → PyResult Unit
  | none => .raised "KeyError"
  | some _ => .ok ()

/-- Embedding of `wazuh_agent_status` (src/register_agent.py lines 245-267).
The `pretty` branch only changes the queried resource string (the source
passes a blank path there); the response is the transport oracle either way.
Line 257 serialises the result (`http_codes_serializer` → `code_desc`)
before the status check, so a `None` status raises KeyError here. -/
def wazuh_agent_status (agt_name : String) (pretty : Bool) (st : AuthState)
    (now : Nat) (login : LoginResp) (tr : Transport AgentListBody) :
    PyResult (Option String × Option String × Option String) × AuthState :=
  match wazuh_api .get
      (if pretty then "   "
       else "agents?q=name=" ++ agt_name ++ "&wait_for_complete=true")
      st now login tr with
  | (.raised m, st2, _) => (.raised m, st2)
  | (.ok r, st2, _) =>
    match code_desc r.status_code with
    | .raised m => (.raised m, st2)
    | .ok _ =>
      if r.status_code = some 200 then
        match r.body with
        | some b =>
          if b.error = 0 then (.ok (status_fold b.affected_items), st2)
          else (.ok (none, none, none), st2)
        | none => (.raised "KeyError", st2)
      else (.ok (none, none, none), st2)

/-- Embedding of `add_agent` (src/register_agent.py lines 202-243).  The two
payload shapes (with and without `agt_ip`) are both abstracted by the
transport oracle.  On HTTP 400 the source logs and falls through (implicit
`None`); on 200 with `error == 0` it returns the `(id, key)` pair; otherwise
it logs and returns `None`.  Line 230 serialises the result before the
status checks, so a `None` status raises KeyError there. -/
def add_agent (agt_name : String) (agt_ip : Option String) (st : AuthState)
    (now : Nat) (login : LoginResp) (tr : Transport InsertBody) :
    PyResult (Option (String × String)) × AuthState :=
  match wazuh_api .post "agents/insert" st now login tr with
  | (.raised m, st2, _) => (.raised m, st2)
  | (.ok r, st2, _) =>
    match code_desc r.status_code with
    | .raised m => (.raised m, st2)
    | .ok _ =>
      if r.status_code = some 400 then (.ok none, st2)
      else if r.status_code = some 200 then
        match r.body with
        | some b =>
          if b.error = 0 then (.ok (some (b.id, b.key)), st2)
          else (.ok none, st2)
        | none => (.raised "KeyError", st2)
      else (.ok none, st2)

/-- Embedding of `get_agent_key` (src/register_agent.py lines 309-322).  On
200 with `error == 0` the source returns from inside the loop on the first
item; with an empty list it logs and falls off the end (implicit `None`).
Line 312 serialises the result before the status check, so a `None` status
raises KeyError there. -/
def get_agent_key (agent_id : String) (st : AuthState) (now : Nat)
    (login : LoginResp) (tr : Transport KeyListBody) :
    PyResult (Option String) × AuthState :=
  match wazuh_api .get ("agents/" ++ agent_id ++ "/key") st now login tr with
  | (.raised m, st2, _) => (.raised m, st2)
  | (.ok r, st2, _) =>
    match code_desc r.status_code with
    | .raised m => (.raised m, st2)
    | .ok _ =>
      if r.status_code = some 200 then
        match r.body with
        | some b =>
          if b.error = 0 then
            (.ok ((b.affected_items.head?).map KeyItem.key), st2)
          else (.ok none, st2)
        | none => (.raised "KeyError", st2)
      else (.ok none, st2)

/-- Result of one invocation (one recursion level) of `add_agent_to_group`:
early return because the group is already present, successful assignment
returning the response, a failed assignment that will sleep and recurse, or a
raised exception (`IndexError` on `affected_items[0]` of an empty list,
`KeyError` on a missing `error` field, or a propagated exception). -/
inductive StepResult where
  | alreadyIn
  | assigned (b : PutBody)
  | retry
  | raised (msg : String)
deriving DecidableEq, Repr

/-- Group-assignment part of `add_agent_to_group` (src/register_agent.py
lines 183-196): issue the PUT, serialise its result (line 188, raising
KeyError on a `None` status), then test `status_code == 200 and
response["error"] == 0`; on success return the response, otherwise the
invocation will sleep and recurse (`retry`).  The middle component counts the
PUT call made. -/
def group_put_call (wazuh_agent_id agent_group : String) (st : AuthState)
    (now : Nat) (login : LoginResp) (putTr : Transport PutBody) :
    StepResult × Nat × AuthState :=
  match wazuh_api .put
      ("agents/" ++ wazuh_agent_id ++ "/group/" ++ agent_group ++
        "?pretty=true&wait_for_complete=true") st now login putTr with
  | (.raised m, st2, _) => (.raised m, 1, st2)
  | (.ok pres, st2, _) =>
    match code_desc pres.status_code with
    | .raised m => (.raised m, 1, st2)
    | .ok _ =>
      if pres.status_code = some 200 then
        match pres.body with
        | some pb =>
          if pb.error = 0 then (.assigned pb, 1, st2) else (.retry, 1, st2)
        | none => (.raised "KeyError", 1, st2)
      else (.retry, 1, st2)

/-- One invocation of `add_agent_to_group` (src/register_agent.py lines
168-199) up to but excluding the sleep-and-recurse tail.  Line 171
serialises the fetch result before the membership check, so a `None` status
raises KeyError there, before any PUT.  Returns the step result, the number
of group-assignment (PUT) calls made by this invocation (0 or 1), and the
updated auth state. -/
def add_agent_to_group_step (wazuh_agent_id agent_group : String)
    (st : AuthState) (now : Nat) (login : LoginResp)
    (fetchTr : Transport AgentListBody) (putTr : Transport PutBody) :
    StepResult × Nat × AuthState :=
  match wazuh_api .get ("agents?agents_list=" ++ wazuh_agent_id)
      st now login fetchTr with
  | (.raised m, st1, _) => (.raised m, 0, st1)
  | (.ok fres, st1, _) =>
    match code_desc fres.status_code with
    | .raised m => (.raised m, 0, st1)
    | .ok _ =>
      if fres.status_code = some 200 then
        match fres.body with
        | some fb =>
          if fb.error = 0 then
            match fb.affected_items with
            | [] => (.raised "IndexError", 0, st1)
            | it :: _ =>
              if agent_group ∈ it.group.getD [] then (.alreadyIn, 0, st1)
              else group_put_call wazuh_agent_id agent_group st1 now login
                putTr
          else group_put_call wazuh_agent_id agent_group st1 now login putTr
        | none => (.raised "KeyError", 0, st1)
      else group_put_call wazuh_agent_id agent_group st1 now login putTr

/-- Observable summary of a complete `add_agent_to_group` run: the value the
top-level call returns (the source discards the recursive call's value, so a
run that retried returns `None`), whether the final step actually assigned
the group, and the total numbers of PUT calls and sleeps. -/
structure GroupRun where
  returned : PyResult (Option PutBody)
  succeeded : Bool
  put_calls : Nat
  sleeps : Nat
deriving DecidableEq, Repr

/-- Fueled embedding of the recursive `add_agent_to_group` (src/
register_agent.py lines 168-199).  `fetchTr k` and `putTr k` are the server's
responses to the k-th invocation's two API calls; `fuel` bounds the number of
invocations unrolled and `none` means the retry loop was still running after
`fuel` invocations.  Each retry sleeps `wait_time` before recursing. -/
def add_agent_to_group (wazuh_agent_id agent_group : String)
    (login : LoginResp) (fetchTr : Nat → Transport AgentListBody)
    (putTr : Nat → Transport PutBody) (wait_time : Nat) :
    Nat → Nat → AuthState → Nat → Option GroupRun
  | 0, _, _, _ => none
  | fuel + 1, k, st, now =>
    match add_agent_to_group_step wazuh_agent_id agent_group st now login
        (fetchTr k) (putTr k) with
    | (.alreadyIn, p, _) => some ⟨.ok none, false, p, 0⟩
    | (.assigned b, p, _) => some ⟨.ok (some b), true, p, 0⟩
    | (.raised m, p, _) => some ⟨.raised m, false, p, 0⟩
    | (.retry, p, st1) =>
      match add_agent_to_group wazuh_agent_id agent_group login fetchTr putTr
          wait_time fuel (k + 1) st1 (now + wait_time) with
      | none => none
      | some r =>
        some ⟨(match r.returned with
               | .raised m => .raised m
               | .ok _ => .ok none),
              r.succeeded, r.put_calls + p, r.sleeps + 1⟩

/-- Whether a group-membership fetch outcome lets `add_agent_to_group`
proceed to the assignment call: a response that is not a well-formed success
whose first item already lists the group (already-present short circuit) and
whose item list is non-empty (an empty list raises IndexError).  A transport
failure does not proceed either: the serialiser raises KeyError on the
`None` status before the check. -/
def fetch_proceeds (agent_group : String) : Transport AgentListBody → Bool
  | .resp c b =>
    if c = 200 then
      if b.error = 0 then
        match b.affected_items with
        | [] => false
        | it :: _ => decide (agent_group ∉ it.group.getD [])
      else true
    else true
  | .exn => false

/-- Summary of a finished polling loop: the final resolver outcome, the
number of resolver calls made, and the number of sleeps performed. -/
structure PollResult where
  outcome : PyResult (Option String × Option String × Option String)
  resolutions : Nat
  sleeps : Nat
deriving DecidableEq, Repr

/-- Fueled embedding of the `while status:` polling loop of `__main__`
(src/register_agent.py lines 364-380): one `wazuh_agent_status` call per
iteration, exit when the status equals "active", otherwise sleep `wait_time`
and iterate.  `pollTr i` is the server's response to the i-th resolution;
`none` means the loop was still running after `fuel` iterations. -/
def poll_loop (node_name : String) (login : LoginResp)
    (pollTr : Nat → Transport AgentListBody) (wait_time : Nat) :
    Nat → Nat → AuthState → Nat → Option PollResult
  | 0, _, _, _ => none
  | fuel + 1, i, st, now =>
    match wazuh_agent_status node_name false st now login (pollTr i) with
    | (.raised m, _) => some ⟨.raised m, 1, 0⟩
    | (.ok t, st2) =>
      if t.2.1 = some "active" then some ⟨.ok t, 1, 0⟩
      else
        match poll_loop node_name login pollTr wait_time fuel (i + 1) st2
            (now + wait_time) with
        | none => none
        | some r => some ⟨r.outcome, r.resolutions + 1, r.sleeps + 1⟩

/-- How the enrollment phase of `__main__` ended.  `typeError` is the
exception Python raises at `agent_id, agent_key = add_agent(node_name)` when
`add_agent` returned `None`; `valueError` is the explicit
`ValueError("Failed to retrieve agent key.")`; `stillPolling` means the
polling loop had not exited within the given fuel. -/
inductive MainOutcome where
  | typeError
  | valueError
  | raisedOther (msg : String)
  | stillPolling
  | done
deriving DecidableEq, Repr

/-- Server-side environment of one `__main__` run: the login response, the
responses to the initial status resolution, the insert call, the key fetch,
and each polling iteration, plus the `WAZUH_GROUPS` and `WAZUH_WAIT_TIME`
configuration. -/
structure MainEnv where
  login : LoginResp
  statusTr : Transport AgentListBody
  insertTr : Transport InsertBody
  keyTr : Transport KeyListBody
  pollTr : Nat → Transport AgentListBody
  groups : String
  wait_time : Nat

/-- Observable trace of the enrollment phase of `__main__`: outcome, number
of `agents/insert` calls, number of key fetches, whether the key-import and
restart collaborators were invoked, resolver calls and sleeps of the polling
loop, and the list of groups for which `add_agent_to_group` is invoked. -/
structure MainTrace where
  outcome : MainOutcome
  insert_calls : Nat
  key_fetch_calls : Nat
  imported : Bool
  restarted : Bool
  resolutions : Nat
  poll_sleeps : Nat
  groups_assigned : List String
deriving DecidableEq, Repr

/-- Continuation of `__main__` after `agent_key` is bound (src/
register_agent.py lines 360-385): raise ValueError when the key is `None`,
otherwise import the key, restart the agent, run the polling loop, and
finally invoke `add_agent_to_group` per configured group unless the group
configuration is the literal "default". -/
def main_after_key (env : MainEnv) (node_name : String)
    (agent_key : Option String) (st : AuthState) (now : Nat) (pollFuel : Nat)
    (ins kf : Nat) : MainTrace :=
  match agent_key with
  | none => ⟨.valueError, ins, kf, false, false, 0, 0, []⟩
  | some _ =>
    match poll_loop node_name env.login env.pollTr env.wait_time pollFuel 0
        st now with
    | none => ⟨.stillPolling, ins, kf, true, true, pollFuel, pollFuel, []⟩
    | some pr =>
      match pr.outcome with
      | .raised m => ⟨.raisedOther m, ins, kf, true, true, pr.resolutions,
          pr.sleeps, []⟩
      | .ok _ =>
        ⟨.done, ins, kf, true, true, pr.resolutions, pr.sleeps,
          if env.groups = "default" then [] else env.groups.splitOn ","⟩

/-- Enrollment phase of `__main__` (src/register_agent.py lines 350-385),
starting from the initial globals `cached_token = None`,
`token_expiration = 0`: resolve the agent's status; if no id was found call
`add_agent` (unpacking its `None` return raises TypeError), else fetch the
key by id; then continue with `main_after_key`. -/
def main_enroll (node_name : String) (env : MainEnv) (t0 : Nat)
    (pollFuel : Nat) : MainTrace :=
  match wazuh_agent_status node_name false ⟨none, 0⟩ t0 env.login
      env.statusTr with
  | (.raised m, _) => ⟨.raisedOther m, 0, 0, false, false, 0, 0, []⟩
  | (.ok t, st1) =>
    match t.2.2 with
    | none =>
      match add_agent node_name none st1 t0 env.login env.insertTr with
      | (.raised m, _) => ⟨.raisedOther m, 1, 0, false, false, 0, 0, []⟩
      | (.ok none, _) => ⟨.typeError, 1, 0, false, false, 0, 0, []⟩
      | (.ok (some (_, akey)), st2) =>
        main_after_key env node_name (some akey) st2 t0 pollFuel 1 0
    | some aid =>
      match get_agent_key aid st1 t0 env.login env.keyTr with
      | (.raised m, _) => ⟨.raisedOther m, 0, 1, false, false, 0, 0, []⟩
      | (.ok k, st2) => main_after_key env node_name k st2 t0 pollFuel 0 1

/-!  Helper lemmas characterising the embedded operations. -/

/-- Under a 200 login response, token acquisition always succeeds, so a
`wazuh_api` call returns exactly the transport outcome. -/
theorem wazuh_api_eq {β : Type} (m : ApiMethod) (rs : String) (st : AuthState)
    (now : Nat) (login : LoginResp) (tr : Transport β)
    (hl : login.status_code = 200) :
    wazuh_api m rs st now login tr
      = (.ok (tr_result tr), auth_next st now login,
         (get_auth_token st now login).2.2) := by
  by_cases hv : token_valid st now <;>
    simp [wazuh_api, auth_next, get_auth_token, hv, hl] <;>
    cases tr <;> rfl

/-- `group_put_call` makes exactly one PUT call. -/
theorem group_put_call_puts (wid grp : String) (st : AuthState) (now : Nat)
    (login : LoginResp) (ptr : Transport PutBody) :
    (group_put_call wid grp st now login ptr).2.1 = 1 := by
  unfold group_put_call
  repeat' split
  all_goals rfl

/-- When the membership fetch lets the invocation proceed, one step of
`add_agent_to_group` is exactly the PUT phase. -/
theorem step_proceeds (wid grp : String) (st : AuthState) (now : Nat)
    (login : LoginResp) (ftr : Transport AgentListBody)
    (ptr : Transport PutBody) (hl : login.status_code = 200)
    (hp : fetch_proceeds grp ftr = true) :
    add_agent_to_group_step wid grp st now login ftr ptr
      = group_put_call wid grp (auth_next st now login) now login ptr := by
  unfold add_agent_to_group_step
  rw [wazuh_api_eq _ _ _ _ _ _ hl]
  cases ftr with
  | exn => simp [fetch_proceeds] at hp
  | resp c b =>
    by_cases hc : c = 200
    · subst hc
      by_cases hb : b.error = 0
      · cases hitems : b.affected_items with
        | nil => simp [fetch_proceeds, hb, hitems] at hp
        | cons it rest =>
          simp [fetch_proceeds, hb, hitems] at hp
          simp [tr_result, code_desc, hb, hitems, hp]
      · simp [tr_result, code_desc, hb]
    · simp [tr_result, code_desc, hc]

/-- When the fetched membership already lists the target group, one step of
`add_agent_to_group` short-circuits with no PUT call. -/
theorem step_already (wid grp : String) (st : AuthState) (now : Nat)
    (login : LoginResp) (b : AgentListBody) (it : AgentItem)
    (rest : List AgentItem) (ptr : Transport PutBody)
    (hl : login.status_code = 200) (hb : b.error = 0)
    (hitems : b.affected_items = it :: rest) (hmem : grp ∈ it.group.getD []) :
    add_agent_to_group_step wid grp st now login (Transport.resp 200 b) ptr
      = (.alreadyIn, 0, auth_next st now login) := by
  unfold add_agent_to_group_step
  rw [wazuh_api_eq _ _ _ _ _ _ hl]
  simp [tr_result, code_desc, hb, hitems, hmem]

/-- Adding an agent against an HTTP 400 insert response returns `None` (the
source logs and falls through). -/
theorem add_agent_400 (agt_name : String) (agt_ip : Option String)
    (st : AuthState) (now : Nat) (login : LoginResp) (ib : InsertBody)
    (hl : login.status_code = 200) :
    add_agent agt_name agt_ip st now login (Transport.resp 400 ib)
      = (.ok none, auth_next st now login) := by
  unfold add_agent
  rw [wazuh_api_eq _ _ _ _ _ _ hl]
  rfl

/-- C2: for every method and resource, a transport/parsing exception inside
the API client call makes `wazuh_api` return the pair `(None, {})` — it
never raises to its caller (the result is a normal `PyResult.ok`), whatever
the auth state and login response. -/
theorem wazuh_api_exception_returns_null {β : Type} (method : ApiMethod)
    (resource : String) (st : AuthState) (now : Nat) (login : LoginResp) :
    (wazuh_api method resource st now login (Transport.exn : Transport β)).1
      = PyResult.ok ⟨none, none⟩ := by
  rcases hg : get_auth_token st now login with ⟨o, st2, n⟩
  cases o <;> simp [wazuh_api, hg]

/-- C3 (amended): with a valid non-empty cached token before its expiry,
`get_auth_token` returns the cached value unchanged with no login call;
otherwise it performs exactly one login call, caching the token with expiry
`now + 300` on HTTP 200, and on non-200 raising the fixed-message exception
"Failed to get authentication token" (the response body is only logged, not
part of the raised error) while leaving the cached token and expiry
unchanged. -/
theorem get_auth_token_spec (st : AuthState) (now : Nat) (login : LoginResp) :
    (token_valid st now = true →
      get_auth_token st now login = (.ok (st.cached_token.getD ""), st, 0))
    ∧ (token_valid st now = false → login.status_code = 200 →
      get_auth_token st now login
        = (.ok login.token, ⟨some login.token, now + 300⟩, 1))
    ∧ (token_valid st now = false → login.status_code ≠ 200 →
      get_auth_token st now login
        = (.raised "Failed to get authentication token", st, 1)) := by
  refine ⟨fun hv => ?_, fun hv hl => ?_, fun hv hl => ?_⟩
  · simp [get_auth_token, hv]
  · simp [get_auth_token, hv, hl]
  · simp [get_auth_token, hv, hl]

/-- C3 witness: at time 5 with token "tok" cached until 10 and a 200 login
available, the cached token is returned unchanged with zero login calls. -/
theorem get_auth_token_spec_witness :
    get_auth_token ⟨some "tok", 10⟩ 5 ⟨200, "new", ""⟩
      = (.ok "tok", ⟨some "tok", 10⟩, 0) :=
  (get_auth_token_spec ⟨some "tok", 10⟩ 5 ⟨200, "new", ""⟩).1 (by decide)

/-- C3 counterexample: on a non-200 login whose body is "bad credentials",
the raised error carries the fixed message
"Failed to get authentication token", which does not contain the response
body — refuting the claim that the raised error contains the body. -/
theorem get_auth_token_message_cex :
    (get_auth_token ⟨none, 0⟩ 0 ⟨500, "", "bad credentials"⟩).1
      = PyResult.raised "Failed to get authentication token"
    ∧ ¬ ("bad credentials".toList
          <:+: "Failed to get authentication token".toList) :=
  ⟨rfl, by decide⟩

/-- C8 (amended): when the cache is invalid and the login response is
non-200, `get_auth_token` raises its AuthError, but `wazuh_api` catches it
(`try/except Exception`), so the API call returns `(None, {})` to its caller
instead of propagating the error. -/
theorem wazuh_api_auth_failure_caught {β : Type} (method : ApiMethod)
    (resource : String) (st : AuthState) (now : Nat) (login : LoginResp)
    (tr : Transport β) (hv : token_valid st now = false)
    (hl : login.status_code ≠ 200) :
    (wazuh_api method resource st now login tr).1 = PyResult.ok ⟨none, none⟩
    ∧ (get_auth_token st now login).1
        = PyResult.raised "Failed to get authentication token" := by
  have hg : get_auth_token st now login
      = (.raised "Failed to get authentication token", st, 1) := by
    simp [get_auth_token, hv, hl]
  exact ⟨by simp [wazuh_api, hg], by rw [hg]⟩

/-- C8 witness: a concrete call with an empty cache and a 500 login response
returns `(None, {})` while `get_auth_token` raised internally. -/
theorem wazuh_api_auth_failure_caught_witness :
    (wazuh_api .get "agents" ⟨none, 0⟩ 0 ⟨500, "", "denied"⟩
        (Transport.resp 200 (⟨0⟩ : PutBody))).1 = PyResult.ok ⟨none, none⟩
    ∧ (get_auth_token ⟨none, 0⟩ 0 ⟨500, "", "denied"⟩).1
        = PyResult.raised "Failed to get authentication token" :=
  wazuh_api_auth_failure_caught .get "agents" ⟨none, 0⟩ 0 ⟨500, "", "denied"⟩
    (Transport.resp 200 (⟨0⟩ : PutBody)) (by decide) (by decide)

/-- C8 counterexample: a `wazuh_api` call whose token acquisition fails with
a non-200 login returns the normal value `(None, {})` to its caller — it
does not raise, refuting the claim that the AuthError propagates out of the
first API call attempted. -/
theorem wazuh_api_auth_failure_cex :
    (wazuh_api .get "agents" ⟨none, 0⟩ 0 ⟨500, "", "denied"⟩
        (Transport.resp 200 (⟨7⟩ : PutBody))).1 = PyResult.ok ⟨none, none⟩
    ∧ (wazuh_api .get "agents" ⟨none, 0⟩ 0 ⟨500, "", "denied"⟩
        (Transport.resp 200 (⟨7⟩ : PutBody))).1
      ≠ PyResult.raised "Failed to get authentication token" :=
  ⟨rfl, by decide⟩

/-- C5: when the membership fetch succeeds (HTTP 200, error 0) and the
target group is already in the agent's group list, `add_agent_to_group` is a
no-op: the run ends immediately, returns `None`, and makes zero assignment
calls; when the group is absent, one invocation makes exactly one
group-assignment call. -/
theorem add_group_idempotent (wid grp : String) (login : LoginResp)
    (fetchTr : Nat → Transport AgentListBody)
    (putTr : Nat → Transport PutBody) (w fuel k : Nat) (st : AuthState)
    (now : Nat) (b : AgentListBody) (it : AgentItem) (rest : List AgentItem)
    (hl : login.status_code = 200) (hf : fetchTr k = Transport.resp 200 b)
    (hb : b.error = 0) (hitems : b.affected_items = it :: rest) :
    (grp ∈ it.group.getD [] →
      add_agent_to_group wid grp login fetchTr putTr w (fuel + 1) k st now
        = some ⟨PyResult.ok none, false, 0, 0⟩)
    ∧ (grp ∉ it.group.getD [] →
      ∀ ptr : Transport PutBody,
        (add_agent_to_group_step wid grp st now login (fetchTr k) ptr).2.1
          = 1) := by
  constructor
  · intro hmem
    unfold add_agent_to_group
    rw [hf, step_already wid grp st now login b it rest (putTr k) hl hb
      hitems hmem]
  · intro hmem ptr
    rw [hf, step_proceeds wid grp st now login (Transport.resp 200 b) ptr hl
      (by simp [fetch_proceeds, hb, hitems, hmem])]
    exact group_put_call_puts _ _ _ _ _ _

/-- C5 witness: with the group already present the run makes zero PUT calls
and returns immediately; with a different (absent) group the single step
makes exactly one PUT call. -/
theorem add_group_idempotent_witness :
    add_agent_to_group "001" "g" ⟨200, "t", ""⟩
        (fun _ => Transport.resp 200 ⟨0, [⟨"n1", "active", "001", some ["g"]⟩]⟩)
        (fun _ => Transport.exn) 30 1 0 ⟨none, 0⟩ 0
      = some ⟨PyResult.ok none, false, 0, 0⟩
    ∧ (add_agent_to_group_step "001" "h" ⟨none, 0⟩ 0 ⟨200, "t", ""⟩
        (Transport.resp 200 ⟨0, [⟨"n1", "active", "001", some ["g"]⟩]⟩)
        Transport.exn).2.1 = 1 :=
  ⟨(add_group_idempotent "001" "g" ⟨200, "t", ""⟩
      (fun _ => Transport.resp 200 ⟨0, [⟨"n1", "active", "001", some ["g"]⟩]⟩)
      (fun _ => Transport.exn) 30 0 0 ⟨none, 0⟩ 0
      ⟨0, [⟨"n1", "active", "001", some ["g"]⟩]⟩
      ⟨"n1", "active", "001", some ["g"]⟩ [] rfl rfl rfl rfl).1 (by decide),
   (add_group_idempotent "001" "h" ⟨200, "t", ""⟩
      (fun _ => Transport.resp 200 ⟨0, [⟨"n1", "active", "001", some ["g"]⟩]⟩)
      (fun _ => Transport.exn) 30 0 0 ⟨none, 0⟩ 0
      ⟨0, [⟨"n1", "active", "001", some ["g"]⟩]⟩
      ⟨"n1", "active", "001", some ["g"]⟩ [] rfl rfl rfl rfl).2 (by decide)
      Transport.exn⟩

/-- C1 (amended): when the initial resolution finds no agent id and the
insert call returns HTTP 400, `add_agent` returns `None` and the
orchestrator terminates with the TypeError raised while unpacking that
`None` (not the explicit key-retrieval ValueError); the key-import, restart
and polling steps are never executed. -/
theorem main_insert_400_type_error (node_name : String) (env : MainEnv)
    (t0 pollFuel : Nat) (nm stt : Option String) (ib : InsertBody)
    (hl : env.login.status_code = 200)
    (hres : (wazuh_agent_status node_name false ⟨none, 0⟩ t0 env.login
        env.statusTr).1 = PyResult.ok (nm, stt, none))
    (hins : env.insertTr = Transport.resp 400 ib) :
    main_enroll node_name env t0 pollFuel
      = ⟨.typeError, 1, 0, false, false, 0, 0, []⟩ := by
  unfold main_enroll
  rcases hws : wazuh_agent_status node_name false ⟨none, 0⟩ t0 env.login
      env.statusTr with ⟨o, st1⟩
  rw [hws] at hres
  have ho : o = PyResult.ok (nm, stt, none) := hres
  subst ho
  dsimp only
  rw [hins, add_agent_400 node_name none st1 t0 env.login ib hl]

/-- C1 counterexample: a concrete run with no existing agent and an HTTP 400
insert response terminates with the unpacking TypeError, not the ValueError
the claim names. -/
theorem main_insert_400_cex :
    (main_enroll "n1"
        ⟨⟨200, "tok", ""⟩, Transport.resp 200 ⟨0, []⟩,
          Transport.resp 400 ⟨1, "", ""⟩, Transport.exn,
          fun _ => Transport.exn, "default", 10⟩ 0 3).outcome
      = MainOutcome.typeError
    ∧ MainOutcome.typeError ≠ MainOutcome.valueError :=
  ⟨rfl, by decide⟩

/-- C1 witness: the amended theorem applied to the concrete HTTP 400
scenario: the full trace shows the TypeError outcome with one insert call
and no import, restart or polling. -/
theorem main_insert_400_type_error_witness :
    main_enroll "n1"
        ⟨⟨200, "tok", ""⟩, Transport.resp 200 ⟨0, []⟩,
          Transport.resp 400 ⟨1, "", ""⟩, Transport.exn,
          fun _ => Transport.exn, "default", 10⟩ 0 3
      = ⟨.typeError, 1, 0, false, false, 0, 0, []⟩ :=
  main_insert_400_type_error "n1"
    ⟨⟨200, "tok", ""⟩, Transport.resp 200 ⟨0, []⟩,
      Transport.resp 400 ⟨1, "", ""⟩, Transport.exn,
      fun _ => Transport.exn, "default", 10⟩ 0 3 none none ⟨1, "", ""⟩
    rfl rfl rfl
